import Mathlib

/-!
# Verification of the file-mediated worker channel of sql-server-table-assistant

This development shallowly embeds the request/response file channel of the
repository: the web tier (`web_server.py`: session registry, output monitor,
heartbeat timer, query submission) and the worker side
(`mcp-ssms-client-file.py`: `get_input`, `FileBasedClientSession.call_tool`,
the chat/refinement loops).  File contents are modelled as `String`s, the
per-session registry as an association list, and the concurrent loops as
explicit step functions folded over observation sequences.  Times are in
milliseconds or seconds (`Nat`) as noted at each definition.
-/

namespace SqlAssistant

/-! ## Python string primitives

Lean counterparts of the Python `str` operations the source uses, defined
over the character data of a `String`. -/

/-- Python `str.strip()`: remove leading and trailing whitespace. -/
def pyStrip (s : String) : String :=
  ⟨((s.data.dropWhile Char.isWhitespace).reverse.dropWhile Char.isWhitespace).reverse⟩

/-- Python `str.lower()` (ASCII case folding, which covers every sentinel and
command letter the protocol compares). -/
def pyLower (s : String) : String := ⟨s.data.map Char.toLower⟩

/-- Python `str.startswith(pre)`. -/
def pyStartsWith (s pre : String) : Bool := pre.data.isPrefixOf s.data

/-- Python `str.endswith(suf)`. -/
def pyEndsWith (s suf : String) : Bool := suf.data.isSuffixOf s.data

/-- Python `s[n:]` (drop the first `n` characters). -/
def pyDrop (s : String) (n : Nat) : String := ⟨s.data.drop n⟩

/-! ## Output aggregator (`web_server.py`, `monitor_output`, lines 526-708)

Each iteration of the monitor loop reads the new bytes of the response file
(possibly none), appends them to an internal buffer, and then either flushes
the joined buffer to the consumer as one chunk or keeps accumulating.  In the
source the flush decision is `len(''.join(buffer)) > 30 or now - last_flush >
0.3` when new content arrived (line 652) and `buffer and now - last_flush >
1.0` on an idle tick (line 666); after the loop a final flush empties what
remains (lines 704-708).  The model keeps the decision as an explicit boolean
per tick, so that one theorem covers every choice of flush boundaries; the
source's concrete triggers are recorded below. -/

structure AggState where
  buffer : List String
  delivered : List String
  deriving Repr, DecidableEq

/-- One iteration of the monitor loop: `newContent` is what this tick read
from the response file (`""` when nothing new), `flush` is the flush decision
of this tick.  The source appends only non-empty reads to the buffer
(line 609 `if new_content:`) and only ever flushes a non-empty buffer. -/
def monitorBuf (s : AggState) (newContent : String) : List String :=
  if newContent.isEmpty then s.buffer else s.buffer ++ [newContent]

def monitorPoll (s : AggState) (newContent : String) (flush : Bool) : AggState :=
  if flush && !(monitorBuf s newContent).isEmpty then
    { buffer := [], delivered := s.delivered ++ [String.join (monitorBuf s newContent)] }
  else
    { buffer := monitorBuf s newContent, delivered := s.delivered }

/-- A whole run of the monitor loop over a sequence of (read content, flush
decision) ticks, starting from the empty buffer. -/
def monitorRun (events : List (String × Bool)) : AggState :=
  events.foldl (fun s e => monitorPoll s e.1 e.2) ⟨[], []⟩

/-- The final flush after the loop exits (`web_server.py` lines 704-708):
whatever is still buffered is delivered as one last chunk. -/
def monitorFinalFlush (s : AggState) : List String :=
  if s.buffer.isEmpty then s.delivered else s.delivered ++ [String.join s.buffer]

/-- The source's flush trigger on a tick that read new content
(`web_server.py` line 652): buffered length above 30 bytes, or more than
0.3 s (300 ms) since the last flush. -/
def contentFlushTrigger (bufferedLen msSinceFlush : Nat) : Bool :=
  decide (bufferedLen > 30) || decide (msSinceFlush > 300)

/-- The source's flush trigger on an idle tick (`web_server.py` line 666):
non-empty buffer and more than 1.0 s (1000 ms) since the last flush. -/
def idleFlushTrigger (bufferNonempty : Bool) (msSinceFlush : Nat) : Bool :=
  bufferNonempty && decide (msSinceFlush > 1000)

lemma string_join_append (a b : List String) :
    String.join (a ++ b) = String.join a ++ String.join b := by
  apply String.ext
  simp

lemma monitorBuf_join (s : AggState) (c : String) :
    String.join (monitorBuf s c) = String.join s.buffer ++ c := by
  unfold monitorBuf
  by_cases hc : c.isEmpty
  · rw [if_pos hc, (String.isEmpty_iff c).mp hc]
    apply String.ext; simp
  · rw [if_neg hc]
    apply String.ext; simp

lemma monitorPoll_delivery (s : AggState) (c : String) (fl : Bool) :
    String.join (monitorPoll s c fl).delivered ++ String.join (monitorPoll s c fl).buffer
      = String.join s.delivered ++ String.join s.buffer ++ c := by
  unfold monitorPoll
  by_cases hf : (fl && !(monitorBuf s c).isEmpty) = true
  · rw [if_pos hf]
    have := monitorBuf_join s c
    apply String.ext
    have hd := congrArg String.data this
    simp at hd ⊢
    simp [hd]
  · rw [if_neg hf]
    have := monitorBuf_join s c
    apply String.ext
    have hd := congrArg String.data this
    simp at hd ⊢
    simp [hd]

lemma monitorRun_invariant (events : List (String × Bool)) (s : AggState) :
    String.join (events.foldl (fun st e => monitorPoll st e.1 e.2) s).delivered
        ++ String.join (events.foldl (fun st e => monitorPoll st e.1 e.2) s).buffer
      = String.join s.delivered ++ String.join s.buffer
        ++ String.join (events.map Prod.fst) := by
  induction events generalizing s with
  | nil => apply String.ext; simp
  | cons e rest ih =>
    simp only [List.foldl_cons, List.map_cons]
    rw [ih, monitorPoll_delivery]
    apply String.ext; simp

lemma monitorFinalFlush_join (st : AggState) :
    String.join (monitorFinalFlush st)
      = String.join st.delivered ++ String.join st.buffer := by
  unfold monitorFinalFlush
  by_cases hb : st.buffer.isEmpty
  · rw [if_pos hb, List.isEmpty_iff.mp hb]
    apply String.ext; simp
  · rw [if_neg hb]
    apply String.ext; simp

/-- C1: over every run of the output-monitoring loop, the concatenation of all
chunks delivered to the consumer (including the final flush) equals, in
order, the bytes the loop read from the response file, for every choice of
flush boundaries — so no byte is reordered, duplicated, or dropped. -/
theorem monitor_output_ordering (events : List (String × Bool)) :
    String.join (monitorFinalFlush (monitorRun events))
      = String.join (events.map Prod.fst) := by
  rw [monitorFinalFlush_join]
  have h := monitorRun_invariant events ⟨[], []⟩
  simp only [monitorRun]
  rw [h]
  apply String.ext; simp

/-! ## Worker processes and the session registry (`web_server.py`)

`active_sessions` is a global dict from session uid to a per-session record
holding `active`, the IPC file paths, the spawned process and the current
action.  The model keys sessions by uid in an association list and stores the
*contents* of each session's input and output file directly in the record
(`none` = the file does not exist on disk).  A worker process is modelled by
its run status plus the signals it has received; `exitsOnTerm` records
whether this particular worker reacts to a graceful termination signal by
exiting (external behaviour of the child, not state the server holds). -/

inductive ProcStatus where
  | running
  | exited (code : Int)
  deriving Repr, DecidableEq

structure Process where
  status : ProcStatus
  exitsOnTerm : Bool
  termRequested : Bool
  killed : Bool
  deriving Repr, DecidableEq

/-- `Popen.poll()`: `none` while the process is still running, otherwise the
exit code.  Total: it never raises. -/
def Process.poll (p : Process) : Option Int :=
  match p.status with
  | .running => none
  | .exited c => some c

/-- `Popen.terminate()`: sends the graceful termination signal.  On a live
process it records the signal and the process exits iff it honours SIGTERM;
on an already-dead handle the call may fail, modelled as an `Except` error
(the callers in `web_server.py` always wrap it in `try/except`). -/
def popenTerminate (p : Process) : Except String Process :=
  match p.status with
  | .running =>
      .ok { p with termRequested := true,
                   status := if p.exitsOnTerm then .exited 0 else .running }
  | .exited _ => .error "process already terminated"

/-- `try: process.terminate() except: pass` — the only way `web_server.py`
ever terminates a worker (lines 567-571 and 869-874): any error is
swallowed, so the call is a no-op on a dead handle. -/
def tryTerminate (p : Process) : Process :=
  match popenTerminate p with
  | .ok p' => p'
  | .error _ => p

structure SessionData where
  active : Bool
  inputFile : Option String
  outputFile : Option String
  process : Option Process
  currentAction : Option String
  deriving Repr, DecidableEq

structure Registry where
  sessions : List (String × SessionData)
  deriving Repr, DecidableEq

/-- Look a session up in `active_sessions`. -/
def Registry.find (reg : Registry) (uid : String) : Option SessionData :=
  List.lookup uid reg.sessions

/-- Store (insert or replace) a session record. -/
def Registry.store (reg : Registry) (uid : String) (sd : SessionData) : Registry :=
  ⟨(uid, sd) :: reg.sessions.filter (fun e => !(e.1 == uid))⟩

/-- `del active_sessions[uid]`. -/
def Registry.erase (reg : Registry) (uid : String) : Registry :=
  ⟨reg.sessions.filter (fun e => !(e.1 == uid))⟩

/-- The input-file contents of a session (`none` when the session or the
file is missing). -/
def Registry.inputOf (reg : Registry) (uid : String) : Option String :=
  (reg.find uid).bind (·.inputFile)

/-- `is_process_alive` (`web_server.py` lines 888-898): false when the uid is
not registered, when the entry holds no process object, and otherwise true
exactly when `poll()` reports the process still running.  Total by
construction — every branch returns a boolean, nothing can raise. -/
def is_process_alive (reg : Registry) (session_id : String) : Bool :=
  match reg.find session_id with
  | none => false
  | some sd =>
    match sd.process with
    | none => false
    | some process => process.poll matches none

/-- `cleanup_session` (`web_server.py` lines 860-886): mark inactive,
terminate the process with errors swallowed, remove both IPC files, delete
the registry entry.  The second component is the state of the (now detached)
worker process after the termination attempt, `none` when the session had no
process or was not registered. -/
def cleanup_session (reg : Registry) (uid : String) : Registry × Option Process :=
  match reg.find uid with
  | none => (reg, none)
  | some sd => (reg.erase uid, sd.process.map tryTerminate)

/-- The session record right after a (re)start: active, both IPC files
truncated to empty, the freshly spawned worker attached, no action yet —
the `Starting` state of the spec's lifecycle. -/
def freshSession (newWorker : Process) : SessionData :=
  { active := true
    inputFile := some ""
    outputFile := some ""
    process := some newWorker
    currentAction := none }

/-- `start_client_process` (`web_server.py` lines 439-743), state part: both
IPC files are created/truncated to empty, a fresh session record is stored
and the spawned worker (`newWorker`, behaviour of the child process) is
attached to it. -/
def start_client_process (reg : Registry) (uid : String) (newWorker : Process) : Registry :=
  reg.store uid (freshSession newWorker)

/-- `active_sessions[uid]['current_action'] = a`. -/
def set_current_action (reg : Registry) (uid : String) (a : Option String) : Registry :=
  match reg.find uid with
  | none => reg
  | some sd => reg.store uid { sd with currentAction := a }

/-- `run_client_query` (`web_server.py` lines 745-831): bail out (`False`)
when the session is missing/inactive, has no process object, or the process
is not alive; otherwise recreate the input file if it vanished, append a
`[WEB SERVER]` marker to the output file, then overwrite the input file with
the query followed by a newline and report `True`.  The write is
unconditional: nothing checks whether a previous command is still pending in
the input file. -/
def run_client_query (reg : Registry) (uid : String) (query : String) : Registry × Bool :=
  match reg.find uid with
  | none => (reg, false)
  | some sd =>
    if !sd.active then (reg, false)
    else match sd.process with
      | none => (reg, false)
      | some process =>
        if !(process.poll matches none) then (reg, false)
        else
          -- a missing input file is recreated empty (lines 771-778) and then
          -- overwritten below, so only the final overwrite is visible
          let outputContent := sd.outputFile.getD ""
          let marker := "\n[WEB SERVER] About to process query: " ++ query ++ "\n"
          let sd' : SessionData :=
            { sd with
              inputFile := some (query ++ "\n")
              outputFile := some (outputContent ++ marker) }
          (reg.store uid sd', true)

/-- `run_client_action` (`web_server.py` lines 833-858): overwrite the input
file with the action text followed by a newline. -/
def run_client_action (reg : Registry) (uid : String) (action : String) : Registry × Bool :=
  match reg.find uid with
  | none => (reg, false)
  | some sd =>
    if !sd.active then (reg, false)
    else if !(is_process_alive reg uid) then (reg, false)
    else (reg.store uid { sd with inputFile := some (action ++ "\n") }, true)

/-- `handle_query` (`web_server.py` lines 364-394): strip the query; drop it
if empty; (re)start the client process when the session is missing or its
process died; record `current_action = "query"`; submit via
`run_client_query`.  `newWorker` stands for the process a restart would
spawn.  Result `none` models the early return on an empty query, otherwise
`some status` with `run_client_query`'s status. -/
def handle_query (reg : Registry) (uid : String) (rawQuery : String)
    (newWorker : Process) : Registry × Option Bool :=
  let query := pyStrip rawQuery
  if query.isEmpty then (reg, none)
  else
    let reg :=
      if (reg.find uid).isNone then
        start_client_process reg uid newWorker
      else if !(is_process_alive reg uid) then
        start_client_process (cleanup_session reg uid).1 uid newWorker
      else reg
    let reg := set_current_action reg uid (some "query")
    let (reg, status) := run_client_query reg uid query
    (reg, some status)

/-! ## Supervision: the unresponsive-worker restart (`monitor_output`, lines 551-576)

At the top of every monitor iteration the loop compares the current time
with the time of the last observed output.  Past the 120 s window
(`current_time - last_content_time > 120`) it appends a `[SYSTEM]` notice to
the output file, terminates the worker if it is still alive, runs
`cleanup_session` (which terminates again, removes the files and deletes the
entry) and immediately calls `start_client_process` for the same uid, then
exits the monitor thread.  Times below are in milliseconds. -/

/-- The condition under which the monitor considers the session unresponsive
(`web_server.py` line 556). -/
def unresponsiveCheck (nowMs lastContentMs : Nat) : Bool :=
  decide (nowMs - lastContentMs > 120000)

/-- One top-of-loop supervision step of `monitor_output`.  Returns the
registry afterwards, the old worker process as left behind by the
termination attempt (`none` if the branch did not fire or no process
existed), and whether a restart happened. -/
def monitor_restart_step (reg : Registry) (uid : String)
    (nowMs lastContentMs : Nat) (newWorker : Process) :
    Registry × Option Process × Bool :=
  if unresponsiveCheck nowMs lastContentMs then
    let reg₁ :=
      match reg.find uid with
      | none => reg
      | some sd =>
        let msg := "\n[SYSTEM] The process appears to be unresponsive. Attempting to restart...\n"
        reg.store uid { sd with outputFile := some (sd.outputFile.getD "" ++ msg) }
    -- `if is_process_alive: process.terminate()` (swallowed), then cleanup
    let reg₂ :=
      if is_process_alive reg₁ uid then
        match reg₁.find uid with
        | none => reg₁
        | some sd =>
          reg₁.store uid { sd with process := sd.process.map tryTerminate }
      else reg₁
    let cleaned := cleanup_session reg₂ uid
    (start_client_process cleaned.1 uid newWorker, cleaned.2, true)
  else
    (reg, none, false)

/-! ## Heartbeat timer (`start_heartbeat`, `web_server.py` lines 966-995)

Every 30 s the heartbeat thread reads the session's input file and, only
when its stripped content is empty, overwrites it with `__HEARTBEAT__\n`.
The read and the write are two separate file operations with no lock, so a
query submission by another thread can interleave between them.  The channel
is modelled by the raw request-file content plus the heartbeat thread's last
observation; each constructor of `ChanAction` is one atomic file operation
(`hbBeat` is the hypothetical check-and-write fused into a single step). -/

/-- A request-file content that is a real pending command: non-empty after
stripping and not one of the reserved sentinels. -/
def realPending (content : String) : Bool :=
  !(pyStrip content).isEmpty
    && !(pyStrip content == "__HEARTBEAT__")
    && !(pyStrip content == "__PROBE__")

structure ChanState where
  reqFile : String
  hbSawEmpty : Bool
  clobbered : Bool
  deriving Repr, DecidableEq

inductive ChanAction where
  /-- heartbeat thread reads the input file (line 974-975) -/
  | hbCheck
  /-- heartbeat thread writes `__HEARTBEAT__\n` if its check saw empty (line 978-982) -/
  | hbWrite
  /-- check and write fused into one indivisible step -/
  | hbBeat
  /-- `run_client_query` overwrites the input file with a command (line 794-795) -/
  | submit (q : String)
  /-- the worker clears the input file after consuming it -/
  | consume
  deriving Repr, DecidableEq

/-- The heartbeat write: overwrite with the sentinel, flagging `clobbered`
when the overwritten content was a real pending command. -/
def hbOverwrite (s : ChanState) : ChanState :=
  { s with reqFile := "__HEARTBEAT__\n"
           clobbered := s.clobbered || realPending s.reqFile }

def chanStep (s : ChanState) (a : ChanAction) : ChanState :=
  match a with
  | .hbCheck => { s with hbSawEmpty := (pyStrip s.reqFile).isEmpty }
  | .hbWrite => if s.hbSawEmpty then hbOverwrite s else s
  | .hbBeat => if (pyStrip s.reqFile).isEmpty then hbOverwrite s else s
  | .submit q => { s with reqFile := q ++ "\n" }
  | .consume => { s with reqFile := "" }

def chanRun (s : ChanState) (as : List ChanAction) : ChanState :=
  as.foldl chanStep s

/-- The initial channel state: empty request file, no pending heartbeat
observation, nothing clobbered. -/
def chanInit : ChanState := ⟨"", false, false⟩

/-- An action is atomic-heartbeat-safe when it is not one of the two split
halves of the heartbeat body. -/
def atomicAction : ChanAction → Bool
  | .hbCheck => false
  | .hbWrite => false
  | _ => true

/-! ## Response-file read cursor (`monitor_output` lines 584-601 and
`read_assistant_output` lines 935-947)

Both readers keep a byte cursor `last_position` into the response file.  On
every poll they compare the file size with the cursor and, if the file
shrank (concurrent truncation), reset the cursor to 0 before seeking, so the
poll returns the whole current content instead of raising.  Positions are
modelled in characters (the protocol content is ASCII). -/

/-- One read of `monitor_output` (lines 585-602); `initialOutputSeen` is the
startup flag that forces the very first read with content to start at the
beginning.  Returns the newly read content and the new cursor. -/
def monitor_read_step (fileContent : String) (lastPosition : Nat)
    (initialOutputSeen : Bool) : String × Nat :=
  (pyDrop fileContent
    (if !initialOutputSeen && decide (fileContent.length > 0) then 0
     else if fileContent.length < lastPosition then 0 else lastPosition),
   fileContent.length)

/-- One read of `read_assistant_output` (lines 935-947): same cursor
discipline without the startup flag. -/
def read_output_step (fileContent : String) (lastPosition : Nat) : String × Nat :=
  (pyDrop fileContent (if fileContent.length < lastPosition then 0 else lastPosition),
   fileContent.length)

/-! ## Worker input wait (`mcp-ssms-client-file.py`, `get_input`, lines 159-232)

The worker waits for input by (1) appending the prompt to the output file,
(2) creating the `.waiting` flag file, (3) truncating the input file, then
polling the input file once per second for up to 1800 attempts.  A content
starting with `__PROBE__` is acknowledged on the output file, input and flag
files are cleared, and the wait continues; any other non-empty (stripped)
content removes the flag file and is returned.  On timeout the flag file is
removed and a timeout message returned.  `polls` is the sequence of raw
input-file contents observed by the successive reads (its length plays the
role of `max_attempts`). -/

structure WorkerFiles where
  inputFile : String
  flagExists : Bool
  outputFile : String
  deriving Repr, DecidableEq

inductive GetInputOutcome where
  | received (content : String)
  | timedOut
  deriving Repr, DecidableEq

/-- The `__PROBE_ACK__` line written for a probe `content` (line 198):
everything after the 9-character `__PROBE__` prefix is echoed. -/
def probeAck (content : String) : String :=
  "\n__PROBE_ACK__: " ++ pyDrop content 9 ++ "\n"

/-- The setup `get_input` performs before polling (lines 163-180): write the
prompt, create the flag file, truncate the input file — in that order, so a
command already sitting in the input file is destroyed unread. -/
def get_input_setup (prompt : Option String) (st : WorkerFiles) : WorkerFiles :=
  let st := match prompt with
    | some p => { st with outputFile := st.outputFile ++ "\n" ++ p ++ "\n" }
    | none => st
  { st with flagExists := true, inputFile := "" }

/-- The polling loop of `get_input` (lines 184-232).  Each element of
`polls` is the raw input-file content found by one read. -/
def get_input_poll (st : WorkerFiles) : List String → WorkerFiles × GetInputOutcome
  | [] => ({ st with flagExists := false }, .timedOut)
  | raw :: rest =>
    let content := pyStrip raw
    if pyStartsWith content "__PROBE__" then
      get_input_poll
        { st with outputFile := st.outputFile ++ probeAck content
                  inputFile := ""
                  flagExists := false } rest
    else if !content.isEmpty then
      ({ st with inputFile := raw, flagExists := false }, .received content)
    else
      get_input_poll { st with inputFile := raw } rest

/-- `get_input`: setup followed by the polling loop. -/
def get_input (prompt : Option String) (st : WorkerFiles) (polls : List String) :
    WorkerFiles × GetInputOutcome :=
  get_input_poll (get_input_setup prompt st) polls

/-! ## Tool-result wait (`FileBasedClientSession.call_tool`, lines 245-462)

After announcing the tool call on the output file, `call_tool` polls the
input file for the result with a hard timeout: 90 s for `test_connection`,
45 s for everything else, checked at the top of every iteration before the
file is read.  A `__HEARTBEAT__` content is cleared and skipped; any other
non-empty content is taken as the result.  On timeout a per-tool error text
is returned to the caller — nothing is escalated anywhere and no restart is
requested.  `ToolEffect.escalateRestart` exists in the effect vocabulary
because the supervision side of the system does restart sessions
(`monitor_restart_step`); `call_tool` itself never emits it. -/

/-- `timeout_seconds = 90 if tool_name == "test_connection" else 45`
(line 294). -/
def toolTimeoutSeconds (tool_name : String) : Nat :=
  if tool_name == "test_connection" then 90 else 45

inductive ToolEffect where
  | writeOutput (text : String)
  | clearInput
  | removeToolFlag
  | escalateRestart
  deriving Repr, DecidableEq

inductive ToolOutcome where
  /-- a result arrived and is returned as the `MockResponse` text -/
  | result (text : String)
  /-- the timeout branch fired; the returned `MockResponse` error text -/
  | timeout (text : String)
  /-- the observation sequence ended while the call was still waiting -/
  | pending
  deriving Repr, DecidableEq

/-- The `MockResponse` text returned by the timeout branch (lines 349-372). -/
def toolTimeoutResponse (tool_name sqlArg : String) : String :=
  if tool_name == "test_connection" then
    "Connection failed: Timeout while waiting for SQL Server response. This typically indicates:\n" ++
    "1. Network connectivity issues or firewall blocking the connection\n" ++
    "2. SQL Server is unreachable or not running\n" ++
    "3. SQL credentials are incorrect\n" ++
    "4. The ODBC driver is incompatible or missing\n\n" ++
    "Please check SQL Server settings in .env file and verify server connectivity."
  else if tool_name == "get_table_schema" then
    "Error retrieving schema: Connection timed out after 45 seconds. Please check SQL Server connectivity and that the table exists."
  else if tool_name == "query_table" then
    "Error: SQL query execution timed out after 45 seconds. The query may be too complex or the server may be unresponsive.\nQuery: " ++ sqlArg
  else
    "Error: Timeout waiting for " ++ tool_name ++ " result"

/-- The file-side effects of the timeout branch (lines 336-348): the tool
flag file is removed and the timeout notice is appended to the output
file. -/
def toolTimeoutEffects (tool_name : String) : List ToolEffect :=
  [.removeToolFlag,
   .writeOutput ("\nTimeout waiting for tool result after " ++
     toString (toolTimeoutSeconds tool_name) ++ " seconds\n" ++
     "The operation may still be processing on the server.\n")]

/-- The main waiting loop of `call_tool` (lines 329-437).  Each element of
`polls` is `(elapsed seconds since the call started, raw input-file
content)` at one iteration; the timeout test happens before the read, as in
the source. -/
def call_tool_wait (tool_name sqlArg : String) :
    List (Nat × String) → ToolOutcome × List ToolEffect
  | [] => (.pending, [])
  | (elapsed, raw) :: rest =>
    if decide (elapsed > toolTimeoutSeconds tool_name) then
      (.timeout (toolTimeoutResponse tool_name sqlArg), toolTimeoutEffects tool_name)
    else
      let result := pyStrip raw
      if result.isEmpty then call_tool_wait tool_name sqlArg rest
      else if result == "__HEARTBEAT__" then
        ((call_tool_wait tool_name sqlArg rest).1,
         .clearInput :: (call_tool_wait tool_name sqlArg rest).2)
      else
        (.result result,
         [.clearInput, .removeToolFlag,
          .writeOutput ("\nReceived response for " ++ tool_name ++ "\n")])

/-- The pre-loop immediate check of `call_tool` (lines 302-324): a non-empty,
non-heartbeat content already in the input file is consumed as the result;
a heartbeat or empty content falls through to the main loop. -/
def call_tool_first_check (raw : String) : Option String :=
  let result := pyStrip raw
  if !result.isEmpty && !(result == "__HEARTBEAT__") then some result else none

/-! ## Chat loop and query-refinement loop (`mcp-ssms-client-file.py`)

`chat_loop` (lines 1499-1575) classifies each input; `process_query`'s
refinement loop (lines 799-1004) alternates between the decision prompt
(e/f/c) and, after `f`, the feedback prompt.  Heartbeats reach these sites
whenever the worker is waiting at the corresponding `get_input`. -/

inductive ChatAction where
  | skipHeartbeat
  | skipEmpty
  | exitLoop
  | diagnose
  | refreshSchema
  | preview
  | history
  | showLogs (n : Nat)
  | processQuery (q : String)
  deriving Repr, DecidableEq

/-- One classification step of `chat_loop` on the string returned by
`get_input` (lines 1502-1553). -/
def chat_loop_step (rawInput : String) : ChatAction :=
  let query := pyStrip rawInput
  if query == "__HEARTBEAT__" then .skipHeartbeat
  else if query.isEmpty then .skipEmpty
  else if pyLower query == "/exit" then .exitLoop
  else if pyLower query == "/diagnose" then .diagnose
  else if pyLower query == "/refresh_schema" then .refreshSchema
  else if pyLower query == "/preview" then .preview
  else if pyLower query == "/history" then .history
  else if pyStartsWith (pyLower query) "/show-logs" then
    .showLogs (((query.splitOn " ").getD 1 "").toNat?.getD 5)
  else .processQuery query

/-- The states of `process_query`'s refinement loop: waiting at the e/f/c
decision prompt, waiting at the feedback prompt, executing the SQL, loop
left after a cancel, or regenerating SQL from feedback (after which the loop
returns to the decision prompt). -/
inductive RefineState where
  | awaitingDecision
  | awaitingFeedback
  | executing
  | canceled
  deriving Repr, DecidableEq

/-- One step of the refinement loop on the string returned by `get_input` at
the current prompt.  At the decision prompt (lines 825-874) the input is
stripped and lowercased; a `__...__` special value re-enters the loop, `c`
cancels, `f` moves to the feedback prompt, `e` executes, anything else
re-prompts.  At the feedback prompt (lines 844-852) the input is used
verbatim; a `__...__` special value breaks out of the loop ("Query
refinement canceled due to special command"), anything else regenerates SQL
and returns to the decision prompt. -/
def refine_loop_step (st : RefineState) (rawInput : String) : RefineState :=
  match st with
  | .awaitingDecision =>
    let decision := pyLower (pyStrip rawInput)
    if pyStartsWith decision "__" && pyEndsWith decision "__" then .awaitingDecision
    else if decision == "c" then .canceled
    else if decision == "f" then .awaitingFeedback
    else if decision == "e" then .executing
    else .awaitingDecision
  | .awaitingFeedback =>
    if pyStartsWith rawInput "__" && pyEndsWith rawInput "__" then .canceled
    else .awaitingDecision
  | st => st

/-- The guard at the top of `process_query` (lines 763-769): a `__...__`
special value is acknowledged and dropped without touching the conversation
state. -/
def process_query_entry (query : String) : Bool :=
  !(pyStartsWith query "__" && pyEndsWith query "__")

/-! ## Registry lemmas -/

lemma Registry.find_store (reg : Registry) (uid : String) (sd : SessionData) :
    (reg.store uid sd).find uid = some sd := by
  simp [Registry.find, Registry.store, List.lookup]

lemma lookup_filter_ne_none (uid : String) (l : List (String × SessionData)) :
    List.lookup uid (l.filter (fun e => !(e.1 == uid))) = none := by
  induction l with
  | nil => rfl
  | cons e t ih =>
    by_cases h : e.1 = uid
    · simp [List.filter, h, ih]
    · have h1 : (e.1 == uid) = false := beq_eq_false_iff_ne.mpr h
      have h2 : (uid == e.1) = false := beq_eq_false_iff_ne.mpr (Ne.symm h)
      simp [List.filter, h1, List.lookup, h2, ih]

lemma Registry.find_erase (reg : Registry) (uid : String) :
    (reg.erase uid).find uid = none := by
  simp [Registry.find, Registry.erase, lookup_filter_ne_none]

/-! ## C2 — concurrent submission is not rejected -/

/-- A worker process that is alive and honours SIGTERM. -/
def liveWorker : Process :=
  { status := .running, exitsOnTerm := true, termRequested := false, killed := false }

/-- A session whose worker is alive while the first command `SELECT 1` is
still unconsumed in the request file — the "Busy" situation of the spec. -/
def busyRegistry : Registry :=
  ⟨[("s1",
     { active := true
       inputFile := some "SELECT 1\n"
       outputFile := some ""
       process := some liveWorker
       currentAction := some "query" })]⟩

/-- C2 (counterexample): submitting a second query while the first command
is still pending is not rejected — `run_client_query` reports success and
the request file afterwards holds the second command, not the first.  No
`SessionBusy` (or any busy check) exists anywhere in `web_server.py`. -/
theorem submit_while_busy_not_rejected :
    (run_client_query busyRegistry "s1" "SELECT 2").2 = true ∧
    (run_client_query busyRegistry "s1" "SELECT 2").1.inputOf "s1" = some "SELECT 2\n" ∧
    (run_client_query busyRegistry "s1" "SELECT 2").1.inputOf "s1" ≠ some "SELECT 1\n" := by
  decide

/-- C2 (amended): a second query submission for a session whose worker has
not yet consumed a previously submitted command is accepted, performs a
write, and overwrites the request file, which afterwards contains only the
second command — there is no `SessionBusy` rejection. -/
theorem submit_while_busy_overwrites (reg : Registry) (uid query pending : String)
    (sd : SessionData) (p : Process)
    (hfind : reg.find uid = some sd) (hact : sd.active = true)
    (hproc : sd.process = some p) (hrun : p.status = .running)
    (hpend : sd.inputFile = some pending) :
    (run_client_query reg uid query).2 = true ∧
    (run_client_query reg uid query).1.inputOf uid = some (query ++ "\n") := by
  simp [run_client_query, hfind, hact, hproc, Process.poll, hrun,
    Registry.inputOf, Registry.find_store]

theorem submit_while_busy_overwrites_witness :
    (run_client_query busyRegistry "s1" "SELECT 2").2 = true ∧
    (run_client_query busyRegistry "s1" "SELECT 2").1.inputOf "s1" = some ("SELECT 2" ++ "\n") :=
  submit_while_busy_overwrites busyRegistry "s1" "SELECT 2" "SELECT 1\n"
    { active := true
      inputFile := some "SELECT 1\n"
      outputFile := some ""
      process := some liveWorker
      currentAction := some "query" }
    liveWorker rfl rfl rfl rfl rfl

/-! ## C7 — concurrent truncation resets the read cursor -/

lemma pyDrop_zero (s : String) : pyDrop s 0 = s := by
  apply String.ext
  simp [pyDrop]

/-- C7: whenever a poll observes a response file smaller than the reader's
cursor (concurrent truncation), both readers reset the cursor to 0 and
return the whole current content — a defined result, never an error. -/
theorem truncated_file_resets_cursor (content : String) (pos : Nat) (seen : Bool)
    (h : content.length < pos) :
    monitor_read_step content pos seen = (content, content.length) ∧
    read_output_step content pos = (content, content.length) := by
  unfold monitor_read_step read_output_step
  constructor
  · by_cases hseen : (!seen && decide (content.length > 0)) = true
    · rw [if_pos hseen, pyDrop_zero]
    · rw [if_neg hseen, if_pos h, pyDrop_zero]
  · rw [if_pos h, pyDrop_zero]

theorem truncated_file_resets_cursor_witness :
    monitor_read_step "ok\n" 100 true = ("ok\n", "ok\n".length) ∧
    read_output_step "ok\n" 100 = ("ok\n", "ok\n".length) :=
  truncated_file_resets_cursor "ok\n" 100 true (by decide)

/-! ## C10 — totality of the liveness check -/

/-- C10: `is_process_alive` is total and never raises: an unregistered
session id or an entry without a process object yields `false`, and the
check returns `true` exactly when a process object exists whose exit-code
poll reports it still running. -/
theorem is_process_alive_total (reg : Registry) (uid : String) :
    (reg.find uid = none → is_process_alive reg uid = false) ∧
    (∀ sd, reg.find uid = some sd → sd.process = none →
      is_process_alive reg uid = false) ∧
    (is_process_alive reg uid = true ↔
      ∃ sd p, reg.find uid = some sd ∧ sd.process = some p ∧ p.poll = none) := by
  refine ⟨fun h => by simp [is_process_alive, h], fun sd h hp => by simp [is_process_alive, h, hp], ?_, ?_⟩
  · intro h
    simp only [is_process_alive] at h
    cases hfind : reg.find uid with
    | none => simp only [hfind] at h; simp at h
    | some sd =>
      simp only [hfind] at h
      cases hproc : sd.process with
      | none => simp only [hproc] at h; simp at h
      | some p =>
        simp only [hproc] at h
        cases hpoll : p.poll with
        | none => exact ⟨sd, p, rfl, hproc, hpoll⟩
        | some c => simp only [hpoll] at h; simp at h
  · rintro ⟨sd, p, hfind, hproc, hpoll⟩
    simp [is_process_alive, hfind, hproc, hpoll]

theorem is_process_alive_total_witness :
    is_process_alive ⟨[]⟩ "s1" = false :=
  (is_process_alive_total ⟨[]⟩ "s1").1 rfl

/-! ## C3 — heartbeat vs. pending command -/

/-- C3 (counterexample): `send_heartbeat` reads the request file and writes
the sentinel in two separate unsynchronised file operations.  In the
reachable interleaving check–submit–write, the check sees an empty file, a
real command `SELECT 1` is then submitted, and the heartbeat write
overwrites it — a heartbeat write occurring while the request file holds an
unconsumed real command. -/
theorem heartbeat_clobbers_interleaved_command :
    realPending (chanRun chanInit [.hbCheck, .submit "SELECT 1"]).reqFile = true ∧
    (chanRun chanInit [.hbCheck, .submit "SELECT 1", .hbWrite]).reqFile = "__HEARTBEAT__\n" ∧
    (chanRun chanInit [.hbCheck, .submit "SELECT 1", .hbWrite]).clobbered = true := by
  decide

lemma chanStep_atomic_no_clobber (s : ChanState) (a : ChanAction)
    (ha : atomicAction a = true) (hs : s.clobbered = false) :
    (chanStep s a).clobbered = false := by
  cases a with
  | hbCheck => simp [atomicAction] at ha
  | hbWrite => simp [atomicAction] at ha
  | hbBeat =>
    simp only [chanStep]
    by_cases hempty : (pyStrip s.reqFile).isEmpty = true
    · rw [if_pos hempty]
      simp [hbOverwrite, hs, realPending, hempty]
    · rw [if_neg hempty]
      exact hs
  | submit q => simpa [chanStep] using hs
  | consume => simpa [chanStep] using hs

lemma chanRun_atomic_no_clobber (as : List ChanAction) :
    ∀ s : ChanState, (∀ a ∈ as, atomicAction a = true) → s.clobbered = false →
      (chanRun s as).clobbered = false := by
  induction as with
  | nil => intro s _ hs; exact hs
  | cons a rest ih =>
    intro s h hs
    have hstep := chanStep_atomic_no_clobber s a (h a (List.mem_cons_self a rest)) hs
    simpa [chanRun, List.foldl_cons] using
      ih (chanStep s a) (fun b hb => h b (List.mem_cons_of_mem a hb)) hstep

/-- C3 (amended): a heartbeat is written only when the heartbeat body's read
of the request file observed it empty.  When the read and the write execute
as one indivisible step (`hbBeat` — no other writer between check and
write), no reachable state of the channel has a heartbeat overwrite a
pending real command; the source's `send_heartbeat`, however, performs the
check and the write as two separate file operations, so a submission
interleaved between them is overwritten (see the counterexample). -/
theorem heartbeat_non_interference_atomic (as : List ChanAction)
    (h : ∀ a ∈ as, atomicAction a = true) :
    (chanRun chanInit as).clobbered = false :=
  chanRun_atomic_no_clobber as chanInit h rfl

theorem heartbeat_non_interference_atomic_witness :
    (chanRun chanInit
      [ChanAction.hbBeat, ChanAction.submit "SELECT 1", ChanAction.hbBeat,
       ChanAction.consume, ChanAction.hbBeat]).clobbered = false :=
  heartbeat_non_interference_atomic _ (by decide)

/-! ## C6 — terminate: graceful, idempotent, but no forced kill -/

lemma tryTerminate_requested (p : Process) (hp : p.status = .running) :
    (tryTerminate p).termRequested = true := by
  simp [tryTerminate, popenTerminate, hp]

lemma tryTerminate_killed (p : Process) : (tryTerminate p).killed = p.killed := by
  unfold tryTerminate popenTerminate
  cases hs : p.status <;> simp

lemma tryTerminate_dead_noop (p : Process) (c : Int) (hp : p.status = .exited c) :
    tryTerminate p = p := by
  simp [tryTerminate, popenTerminate, hp]

/-- A worker process that ignores the graceful termination signal. -/
def stubbornWorker : Process :=
  { status := .running, exitsOnTerm := false, termRequested := false, killed := false }

def stubbornRegistry : Registry :=
  ⟨[("s1",
     { active := true
       inputFile := some ""
       outputFile := some ""
       process := some stubbornWorker
       currentAction := none })]⟩

/-- C6 (counterexample): `cleanup_session` only ever calls `terminate()`
wrapped in `try/except: pass`; no forcible kill follows any grace period.
A worker that ignores the termination signal is still running and unkilled
after cleanup, although the graceful signal was sent. -/
theorem terminate_never_kills :
    (cleanup_session stubbornRegistry "s1").2.map Process.status
        = some ProcStatus.running ∧
    (cleanup_session stubbornRegistry "s1").2.map Process.killed = some false ∧
    (cleanup_session stubbornRegistry "s1").2.map Process.termRequested = some true := by
  decide

/-- C6 (amended): terminating a session's worker sends the graceful
termination signal when the process is alive, never issues a forcible kill
(the `killed` flag of the handle is untouched), and is idempotent: on an
already-dead handle the termination attempt is a no-op whose error is
swallowed, and the cleanup still completes, removing the registry entry. -/
theorem cleanup_session_terminate_spec (reg : Registry) (uid : String) :
    (cleanup_session reg uid).1.find uid = none ∧
    (∀ sd p, reg.find uid = some sd → sd.process = some p →
      (cleanup_session reg uid).2 = some (tryTerminate p) ∧
      (tryTerminate p).killed = p.killed ∧
      (p.status = .running → (tryTerminate p).termRequested = true) ∧
      (∀ c, p.status = .exited c → tryTerminate p = p)) := by
  constructor
  · cases hfind : reg.find uid with
    | none => simp [cleanup_session, hfind]
    | some sd => simp [cleanup_session, hfind, Registry.find_erase]
  · intro sd p hfind hproc
    refine ⟨?_, tryTerminate_killed p, tryTerminate_requested p, tryTerminate_dead_noop p⟩
    simp [cleanup_session, hfind, hproc]

/-- A worker that has already exited before cleanup runs. -/
def deadWorker : Process :=
  { status := .exited 0, exitsOnTerm := true, termRequested := false, killed := false }

def deadRegistry : Registry :=
  ⟨[("s2",
     { active := true
       inputFile := some ""
       outputFile := some ""
       process := some deadWorker
       currentAction := none })]⟩

theorem cleanup_session_terminate_spec_witness :
    (cleanup_session deadRegistry "s2").1.find "s2" = none ∧
    (cleanup_session deadRegistry "s2").2 = some (tryTerminate deadWorker) ∧
    tryTerminate deadWorker = deadWorker :=
  ⟨(cleanup_session_terminate_spec deadRegistry "s2").1,
   ((cleanup_session_terminate_spec deadRegistry "s2").2 _ deadWorker rfl rfl).1,
   ((cleanup_session_terminate_spec deadRegistry "s2").2 _ deadWorker rfl rfl).2.2.2 0 rfl⟩

/-! ## C4 — which silent sessions actually get the automatic restart

The restart of `monitor_restart_step` is reached only from the top of
`monitor_output`'s `while` loop.  That loop has two other supervision-
relevant exits, neither of which restarts anything:

* `run_process` marks the session inactive the moment the worker's stdout
  hits EOF (`web_server.py` lines 507-515), which makes the loop guard
  `active_sessions[uid]['active']` (line 551) false — the loop ends with
  only the final flush;
* the 10 s no-content check (lines 674-679) finds the process dead and
  `break`s out with "The assistant process has stopped. Please refresh the
  page to restart." — again only the final flush follows.

`monitor_supervision_step` is the decision skeleton of one loop iteration
in source order: loop guard, 120 s check, content branch, 10 s aliveness
check; `monitor_loop_step`/`monitor_loop_run` fold it over a sequence of
observations `(nowMs, lastContentMs, lastCheckMs, readContent)`, mutating
the registry only on a restart decision. -/

lemma tryTerminate_preserves_requested (p : Process) (h : p.termRequested = true) :
    (tryTerminate p).termRequested = true := by
  unfold tryTerminate popenTerminate
  cases hs : p.status <;> simp [h]

lemma monitor_restart_effects (reg : Registry) (uid : String)
    (nowMs lastContentMs : Nat) (newWorker : Process) (sd : SessionData) (p : Process)
    (hfind : reg.find uid = some sd) (hproc : sd.process = some p)
    (hun : unresponsiveCheck nowMs lastContentMs = true) :
    (monitor_restart_step reg uid nowMs lastContentMs newWorker).2.2 = true ∧
    (∃ q : Process,
      (monitor_restart_step reg uid nowMs lastContentMs newWorker).2.1 = some q ∧
      (p.status = .running → q.termRequested = true)) ∧
    (monitor_restart_step reg uid nowMs lastContentMs newWorker).1.find uid
      = some (freshSession newWorker) := by
  refine ⟨?_, ?_, ?_⟩
  · simp [monitor_restart_step, hun]
  · cases hst : p.status with
    | running =>
      refine ⟨tryTerminate (tryTerminate p), ?_,
        fun _ => tryTerminate_preserves_requested _ (tryTerminate_requested p hst)⟩
      simp [monitor_restart_step, hun, hfind, is_process_alive, Registry.find_store,
        cleanup_session, hproc, Process.poll, hst]
    | exited c =>
      refine ⟨tryTerminate p, ?_, fun hr => by simp at hr⟩
      simp [monitor_restart_step, hun, hfind, is_process_alive, Registry.find_store,
        cleanup_session, hproc, Process.poll, hst]
  · simp [monitor_restart_step, hun, start_client_process, Registry.find_store]

/-- `run_process` observing worker stdout EOF (`web_server.py` lines
507-515): the session is marked inactive; nothing is restarted here. -/
def run_process_eof (reg : Registry) (uid : String) : Registry :=
  match reg.find uid with
  | none => reg
  | some sd => reg.store uid { sd with active := false }

/-- The supervision-relevant outcome of one `monitor_output` iteration. -/
inductive MonitorDecision where
  /-- loop guard false: session gone or marked inactive (stdout EOF) -/
  | exitLoop
  /-- the 120 s no-output check fired: restart this session -/
  | restart
  /-- 10 s no-content check found the process dead: `break`, "please refresh" -/
  | breakDead
  /-- keep polling -/
  | continueLoop
  deriving Repr, DecidableEq

/-- The decision skeleton of one `monitor_output` iteration (lines 551-698),
in source order: loop guard (551), 120 s unresponsiveness check (556),
content branch (609), 10 s aliveness check (674-679). -/
def monitor_supervision_step (reg : Registry) (uid : String)
    (nowMs lastContentMs lastCheckMs : Nat) (readContent : Bool) : MonitorDecision :=
  match reg.find uid with
  | none => .exitLoop
  | some sd =>
    if !sd.active then .exitLoop
    else if unresponsiveCheck nowMs lastContentMs then .restart
    else if readContent then .continueLoop
    else if decide (nowMs - lastCheckMs > 10000) && !(is_process_alive reg uid) then
      .breakDead
    else .continueLoop

structure MonitorLoopState where
  reg : Registry
  /-- the monitor thread is still inside its `while` loop -/
  running : Bool
  /-- some iteration took the restart branch -/
  restarted : Bool
  deriving Repr, DecidableEq

/-- One iteration of the monitor thread on an observation
`(nowMs, lastContentMs, lastCheckMs, readContent)`: a restart decision
applies `monitor_restart_step` and exits this thread (the fresh session gets
its own monitor); `exitLoop` and `breakDead` end the thread with no registry
change — only the final flush follows them in the source. -/
def monitor_loop_step (uid : String) (newWorker : Process)
    (st : MonitorLoopState) (obs : Nat × Nat × Nat × Bool) : MonitorLoopState :=
  if !st.running then st
  else
    match monitor_supervision_step st.reg uid obs.1 obs.2.1 obs.2.2.1 obs.2.2.2 with
    | .exitLoop => { st with running := false }
    | .breakDead => { st with running := false }
    | .restart =>
        { reg := (monitor_restart_step st.reg uid obs.1 obs.2.1 newWorker).1
          running := false
          restarted := true }
    | .continueLoop => st

/-- A whole run of the monitor thread over a sequence of observations. -/
def monitor_loop_run (reg : Registry) (uid : String) (newWorker : Process)
    (obss : List (Nat × Nat × Nat × Bool)) : MonitorLoopState :=
  obss.foldl (monitor_loop_step uid newWorker) ⟨reg, true, false⟩

/-- A worker that has exited silently: dead process, session still marked
active (its EOF handler or the monitor has not reacted yet). -/
def silentDeadWorker : Process :=
  { status := .exited 1, exitsOnTerm := true, termRequested := false, killed := false }

def silentDeadSession : SessionData :=
  { active := true
    inputFile := some ""
    outputFile := some ""
    process := some silentDeadWorker
    currentAction := none }

def silentDeadRegistry : Registry := ⟨[("s4", silentDeadSession)]⟩

/-- C4 (counterexample): a worker that exits silently never receives the
automatic restart, even once its silence exceeds the 120 s liveness window.
With the last output at time 0, the 10 s aliveness check fires at 11 s —
long before the 120 s check can — and breaks the monitor loop; at 125 s
(silence beyond the window, `unresponsiveCheck` true) the run has performed
no restart and the registry still holds the dead worker's session
unchanged.  The stdout-EOF path ends the loop the same way: after
`run_process` marks the session inactive, the next supervision step is
`exitLoop`, not a restart. -/
theorem dead_silent_worker_never_restarts :
    unresponsiveCheck 125000 0 = true ∧
    (monitor_loop_run silentDeadRegistry "s4" silentDeadWorker
      [(5000, 0, 0, false), (11000, 0, 0, false), (125000, 0, 11000, false)]).restarted
      = false ∧
    (monitor_loop_run silentDeadRegistry "s4" silentDeadWorker
      [(5000, 0, 0, false), (11000, 0, 0, false), (125000, 0, 11000, false)]).running
      = false ∧
    (monitor_loop_run silentDeadRegistry "s4" silentDeadWorker
      [(5000, 0, 0, false), (11000, 0, 0, false), (125000, 0, 11000, false)]).reg
      = silentDeadRegistry ∧
    monitor_supervision_step (run_process_eof silentDeadRegistry "s4") "s4"
      125000 0 0 false = MonitorDecision.exitLoop := by
  decide

/-- A session whose worker is alive but hung: a live worker with a pending
command, observed 200 s after the last output. -/
def staleWorker : Process :=
  { status := .running, exitsOnTerm := true, termRequested := false, killed := false }

def staleSession : SessionData :=
  { active := true
    inputFile := some "SELECT 1\n"
    outputFile := some ""
    process := some staleWorker
    currentAction := some "query" }

def staleRegistry : Registry := ⟨[("s3", staleSession)]⟩

/-- C4 (amended): the automatic restart happens only through the monitor's
120 s no-output check, which can fire only while the session is still
registered and active (the loop guard).  (1) When it fires, that same step
— with no external action — decides `restart`, terminates the old worker
(termination signal delivered when it was still running) and installs a
fresh `Starting` session: active, truncated files, freshly spawned worker.
(2) A session already marked inactive by the stdout-EOF handler makes the
next supervision step exit the loop, and (3) a dead worker at the 10 s
aliveness check makes it break — and (4) only a restart decision ever
changes the registry or the restarted flag, so both silent-death paths end
the monitor with no automatic restart: recovery then needs external action
(a page refresh or the next query submission). -/
theorem unresponsive_restart_policy (reg : Registry) (uid : String)
    (nowMs lastContentMs lastCheckMs : Nat) (newWorker : Process) :
    (∀ sd p, reg.find uid = some sd → sd.active = true → sd.process = some p →
      unresponsiveCheck nowMs lastContentMs = true →
      monitor_supervision_step reg uid nowMs lastContentMs lastCheckMs false
          = .restart ∧
      (monitor_restart_step reg uid nowMs lastContentMs newWorker).2.2 = true ∧
      (∃ q : Process,
        (monitor_restart_step reg uid nowMs lastContentMs newWorker).2.1 = some q ∧
        (p.status = .running → q.termRequested = true)) ∧
      (monitor_restart_step reg uid nowMs lastContentMs newWorker).1.find uid
        = some (freshSession newWorker)) ∧
    (∀ sd, reg.find uid = some sd → sd.active = false →
      monitor_supervision_step reg uid nowMs lastContentMs lastCheckMs false
        = .exitLoop) ∧
    (∀ sd, reg.find uid = some sd → sd.active = true →
      unresponsiveCheck nowMs lastContentMs = false →
      nowMs - lastCheckMs > 10000 →
      is_process_alive reg uid = false →
      monitor_supervision_step reg uid nowMs lastContentMs lastCheckMs false
        = .breakDead) ∧
    (∀ (st : MonitorLoopState) (a b c : Nat) (d : Bool),
      monitor_supervision_step st.reg uid a b c d ≠ .restart →
      (monitor_loop_step uid newWorker st (a, b, c, d)).reg = st.reg ∧
      (monitor_loop_step uid newWorker st (a, b, c, d)).restarted = st.restarted) := by
  refine ⟨?_, ?_, ?_, ?_⟩
  · intro sd p hfind hact hproc hun
    refine ⟨?_, monitor_restart_effects reg uid nowMs lastContentMs newWorker sd p
      hfind hproc hun⟩
    simp [monitor_supervision_step, hfind, hact, hun]
  · intro sd hfind hact
    simp [monitor_supervision_step, hfind, hact]
  · intro sd hfind hact hun hchk hdead
    simp [monitor_supervision_step, hfind, hact, hun, hchk, hdead]
  · intro st a b c d hne
    unfold monitor_loop_step
    by_cases hrun : st.running = true
    · simp only [hrun, Bool.not_true, Bool.false_eq_true, if_false]
      cases hdec : monitor_supervision_step st.reg uid a b c d with
      | exitLoop => exact ⟨rfl, rfl⟩
      | breakDead => exact ⟨rfl, rfl⟩
      | continueLoop => exact ⟨rfl, rfl⟩
      | restart => exact absurd hdec hne
    · have hrun' : st.running = false := by
        cases h : st.running
        · rfl
        · exact absurd h hrun
      simp [hrun']

theorem unresponsive_restart_policy_witness :
    monitor_supervision_step staleRegistry "s3" 200000 0 0 false
      = MonitorDecision.restart ∧
    (monitor_restart_step staleRegistry "s3" 200000 0 staleWorker).1.find "s3"
      = some (freshSession staleWorker) ∧
    monitor_supervision_step silentDeadRegistry "s4" 30000 0 15000 false
      = MonitorDecision.breakDead ∧
    (monitor_loop_step "s4" silentDeadWorker ⟨silentDeadRegistry, true, false⟩
      (30000, 0, 15000, false)).restarted = false :=
  ⟨((unresponsive_restart_policy staleRegistry "s3" 200000 0 0 staleWorker).1
      staleSession staleWorker rfl rfl rfl (by decide)).1,
   ((unresponsive_restart_policy staleRegistry "s3" 200000 0 0 staleWorker).1
      staleSession staleWorker rfl rfl rfl (by decide)).2.2.2,
   (unresponsive_restart_policy silentDeadRegistry "s4" 30000 0 15000
      silentDeadWorker).2.2.1 silentDeadSession rfl rfl (by decide) (by decide)
      (by decide),
   ((unresponsive_restart_policy silentDeadRegistry "s4" 30000 0 15000
      silentDeadWorker).2.2.2 ⟨silentDeadRegistry, true, false⟩ 30000 0 15000 false
      (by decide)).2⟩

/-! ## C5 — tool-result timeout policy -/

/-- C5 (counterexample): when the 45 s window of a data-bearing
`query_table` call elapses without the command being consumed, the waiting
side returns a timeout error to its caller but escalates nothing: no
`escalateRestart` (nor any restart request) appears among its effects —
contrary to the claim that the channel is escalated to the Session Registry
for a restart. -/
theorem tool_timeout_without_escalation :
    (call_tool_wait "query_table" "SELECT 1" [(10, ""), (46, "")]).1
      = ToolOutcome.timeout (toolTimeoutResponse "query_table" "SELECT 1") ∧
    ToolEffect.escalateRestart ∉
      (call_tool_wait "query_table" "SELECT 1" [(10, ""), (46, "")]).2 := by
  decide

lemma call_tool_no_escalation (tool sqlArg : String) (polls : List (Nat × String)) :
    ToolEffect.escalateRestart ∉ (call_tool_wait tool sqlArg polls).2 := by
  induction polls with
  | nil => simp [call_tool_wait]
  | cons e rest ih =>
    obtain ⟨t, raw⟩ := e
    by_cases ht : t > toolTimeoutSeconds tool
    · simp [call_tool_wait, ht, toolTimeoutEffects]
    · by_cases hempty : (pyStrip raw).isEmpty
      · simpa [call_tool_wait, ht, hempty] using ih
      · by_cases hhb : (pyStrip raw == "__HEARTBEAT__") = true
        · simpa [call_tool_wait, ht, hempty, hhb] using ih
        · simp [call_tool_wait, ht, hempty, hhb]

/-- C5 (amended): the waiting side of a tool call uses a 90 s window for the
`test_connection` connectivity check and a 45 s window for every other
(data-bearing) command; at the first poll past the window it stops waiting
— the rest of the observation sequence is never consumed — and returns a
per-tool timeout error to its caller, with no escalation to the session
registry and no restart request ever emitted, and without retrying the
write. -/
theorem call_tool_timeout_policy (tool sqlArg : String) (polls : List (Nat × String)) :
    toolTimeoutSeconds "test_connection" = 90 ∧
    (tool ≠ "test_connection" → toolTimeoutSeconds tool = 45) ∧
    (∀ t c rest, t > toolTimeoutSeconds tool →
      call_tool_wait tool sqlArg ((t, c) :: rest)
        = (ToolOutcome.timeout (toolTimeoutResponse tool sqlArg),
           toolTimeoutEffects tool)) ∧
    ToolEffect.escalateRestart ∉ (call_tool_wait tool sqlArg polls).2 := by
  refine ⟨rfl, ?_, ?_, call_tool_no_escalation tool sqlArg polls⟩
  · intro hne
    simp [toolTimeoutSeconds, hne]
  · intro t c rest ht
    simp [call_tool_wait, ht]

theorem call_tool_timeout_policy_witness :
    toolTimeoutSeconds "test_connection" = 90 ∧
    toolTimeoutSeconds "query_table" = 45 ∧
    call_tool_wait "query_table" "SELECT 1" [(50, "")]
      = (ToolOutcome.timeout (toolTimeoutResponse "query_table" "SELECT 1"),
         toolTimeoutEffects "query_table") ∧
    ToolEffect.escalateRestart ∉ (call_tool_wait "query_table" "SELECT 1" [(50, "")]).2 :=
  ⟨(call_tool_timeout_policy "query_table" "SELECT 1" [(50, "")]).1,
   (call_tool_timeout_policy "query_table" "SELECT 1" [(50, "")]).2.1 (by decide),
   (call_tool_timeout_policy "query_table" "SELECT 1" [(50, "")]).2.2.1 50 "" [] (by decide),
   (call_tool_timeout_policy "query_table" "SELECT 1" [(50, "")]).2.2.2⟩

/-! ## C8 — handling of the `__HEARTBEAT__` sentinel on the worker side -/

/-- C8 (counterexample): at the feedback prompt a `__HEARTBEAT__` value is
not silently discarded with the conversation state unchanged: `process_query`
breaks out of the refinement loop ("Query refinement canceled due to special
command"), abandoning the pending refinement, instead of continuing to wait
at either prompt. -/
theorem heartbeat_at_feedback_prompt_cancels :
    refine_loop_step .awaitingFeedback "__HEARTBEAT__" = .canceled ∧
    refine_loop_step .awaitingFeedback "__HEARTBEAT__" ≠ .awaitingFeedback ∧
    refine_loop_step .awaitingFeedback "__HEARTBEAT__" ≠ .awaitingDecision := by
  decide

/-- C8 (amended): a `__HEARTBEAT__` read from the request file is never
treated as a real command, decision, feedback, or tool result: the main
query loop skips it, the decision prompt re-enters the loop with the state
unchanged, `process_query` drops it at entry, and the tool-result wait
ignores it in the immediate check and clears-and-continues in the main
loop; at the feedback prompt, however, it is not silently discarded — it
cancels the query-refinement loop. -/
theorem heartbeat_sentinel_handling (tool sqlArg : String) (t : Nat)
    (rest : List (Nat × String)) (h : ¬ t > toolTimeoutSeconds tool) :
    chat_loop_step "__HEARTBEAT__\n" = .skipHeartbeat ∧
    refine_loop_step .awaitingDecision "__HEARTBEAT__" = .awaitingDecision ∧
    refine_loop_step .awaitingFeedback "__HEARTBEAT__" = .canceled ∧
    process_query_entry "__HEARTBEAT__" = false ∧
    call_tool_first_check "__HEARTBEAT__\n" = none ∧
    call_tool_wait tool sqlArg ((t, "__HEARTBEAT__\n") :: rest)
      = ((call_tool_wait tool sqlArg rest).1,
         ToolEffect.clearInput :: (call_tool_wait tool sqlArg rest).2) := by
  refine ⟨by decide, by decide, by decide, by decide, by decide, ?_⟩
  have h1 : (pyStrip "__HEARTBEAT__\n").isEmpty = false := by decide
  have h2 : (pyStrip "__HEARTBEAT__\n" == "__HEARTBEAT__") = true := by decide
  simp [call_tool_wait, h, h1, h2]

theorem heartbeat_sentinel_handling_witness :
    chat_loop_step "__HEARTBEAT__\n" = .skipHeartbeat ∧
    refine_loop_step .awaitingDecision "__HEARTBEAT__" = .awaitingDecision ∧
    refine_loop_step .awaitingFeedback "__HEARTBEAT__" = .canceled ∧
    process_query_entry "__HEARTBEAT__" = false ∧
    call_tool_first_check "__HEARTBEAT__\n" = none ∧
    call_tool_wait "query_table" "SELECT 1" [(0, "__HEARTBEAT__\n")]
      = ((call_tool_wait "query_table" "SELECT 1" []).1,
         ToolEffect.clearInput :: (call_tool_wait "query_table" "SELECT 1" []).2) :=
  heartbeat_sentinel_handling "query_table" "SELECT 1" 0 [] (by decide)

/-! ## C9 — the input wait truncates late and clears its flag -/

lemma get_input_poll_clears_flag (polls : List String) :
    ∀ st : WorkerFiles, (get_input_poll st polls).1.flagExists = false := by
  induction polls with
  | nil => intro st; rfl
  | cons raw rest ih =>
    intro st
    simp only [get_input_poll]
    by_cases hp : pyStartsWith (pyStrip raw) "__PROBE__" = true
    · rw [if_pos hp]
      exact ih _
    · rw [if_neg hp]
      by_cases hne : (!(pyStrip raw).isEmpty) = true
      · rw [if_pos hne]
      · rw [if_neg hne]
        exact ih _

/-- C9: every time the worker begins waiting for input, `get_input` creates
the waiting flag file and truncates the request file *after* the wait
begins, so any command already in the request file is discarded unread —
the whole wait behaves identically for every pre-existing content; and the
flag file is removed again by the time `get_input` returns real input or
times out. -/
theorem get_input_discards_and_clears_flag (prompt : Option String)
    (st : WorkerFiles) (polls : List String) (preContent : String) :
    (get_input_setup prompt st).flagExists = true ∧
    (get_input_setup prompt st).inputFile = "" ∧
    get_input prompt { st with inputFile := preContent } polls
      = get_input prompt st polls ∧
    (get_input prompt st polls).1.flagExists = false := by
  refine ⟨?_, ?_, ?_, get_input_poll_clears_flag polls _⟩
  · cases prompt <;> rfl
  · cases prompt <;> rfl
  · cases prompt <;> rfl

end SqlAssistant
